import Mathlib

/-!
Shallow embedding of `src/view/main_view.rs` from the
wuthering-waves-gacha-record repository: the background refresh
coordinator (`start_data_flush_thread`), the view-model builder
(`MainView::create_bar_chart`), and the frame update / layout loop
(`MainView::update`).  Types imported from `crate::core` are not in the
provided sources and are modelled from the spec where noted.
-/

namespace WWGacha

/-- Modelled from the spec: `Message` from `crate::core::message` (missing
from src/): `StatusUpdate { message: string, success: boolean }`.  Field
reads `self.message.success` / `self.message.message` appear in
`MainView::update`. -/
structure Message where
  message : String
  success : Bool
deriving DecidableEq, Repr

/-- Modelled from the spec: `GachaStatisticsDataItem` from
`crate::core::statistics` (missing from src/): one highlight entry
`(name, count)`; the source reads `item.name` and `item.count`. -/
structure GachaStatisticsDataItem where
  name : String
  count : Int
deriving DecidableEq, Repr

/-- Modelled from the spec: the per-category tally (`PullTally`) stored in
`GachaStatistics` (missing from src/).  The source reads fields
`total`, `pull_count`, `three_count`, `four_count`, `five_count`,
`detail`. -/
structure GachaStatisticsData where
  total : Int
  pull_count : Int
  three_count : Int
  four_count : Int
  five_count : Int
  detail : List GachaStatisticsDataItem
deriving DecidableEq, Repr

/-- Modelled from the spec: `GachaStatistics` (missing from src/) is a
mapping from category-id (card pool type, `i32`) to the per-category
tally, iterated in the mapping's insertion order; embedded as an
association list in that order. -/
abbrev GachaStatistics := List (Int × GachaStatisticsData)

/-- Modelled from the spec: `MessageSender.send` (missing from src/)
emits a status whose success flag the source conflates with success
(the "loading" status carries no definitive failure meaning). -/
def MessageSender.send (s : String) : Message := ⟨s, true⟩

/-- Modelled from the spec: `MessageSender.success` emits
`StatusUpdate { message, success = true }`. -/
def MessageSender.success (s : String) : Message := ⟨s, true⟩

/-- Modelled from the spec: `MessageSender.failed` emits
`StatusUpdate { message, success = false }`. -/
def MessageSender.failed (s : String) : Message := ⟨s, false⟩

/-- The environment one iteration of the `start_data_flush_thread` loop
interacts with: the shutdown flag as loaded at the top of the iteration,
whether `update_flag_rx.recv_timeout(1s)` returned `Ok`, the results of
`gacha_statistics_from_cache()` and `gacha_statistics(..).await`, and
whether `data_tx.send(..)` succeeds (receiver alive).  Errors are the
display strings interpolated by the source's `format!`. -/
structure CycleInput where
  on_exit : Bool
  refresh_received : Bool
  cache_result : Except String GachaStatistics
  fetch_result : Except String GachaStatistics
  data_send_ok : Bool
deriving Repr

/-- What one loop iteration produced: statuses sent through the
`MessageSender`, snapshots delivered on `data_tx`, the updated
`first_flag`, whether the loop `break`s, and whether
`gacha_statistics(..)` was invoked this iteration. -/
structure CycleOutput where
  statuses : List Message
  snapshots : List GachaStatistics
  first_flag' : Bool
  terminated : Bool
  fetch_invoked : Bool
deriving DecidableEq, Repr

/-- The fetch arm of the loop body (`main_view.rs` lines 114-127):
`match gacha_statistics(&message_sender).await`.  On `Ok` the snapshot is
sent; a failed send is only logged (`error!`), no status is emitted.  On
`Err` a failure status carrying the reason is emitted.  `pre` are the
statuses already emitted earlier in the iteration. -/
def fetchArm (pre : List Message) (inp : CycleInput) : CycleOutput :=
  match inp.fetch_result with
  | .ok data =>
    if inp.data_send_ok then
      ⟨pre ++ [MessageSender.success "获取完毕"], [data], false, false, true⟩
    else
      ⟨pre, [], false, false, true⟩
  | .error err =>
    ⟨pre ++ [MessageSender.failed ("抽卡数据统计失败，失败原因：" ++ err)],
      [], false, false, true⟩

/-- One iteration of the loop body of `start_data_flush_thread`
(`main_view.rs` lines 86-129): check the shutdown flag, then do work iff
`first_flag || update_flag_rx.recv_timeout(1s).is_ok()`; on the first
iteration try the cache (a hit sends the snapshot and `continue`s, a
failed send emits "内部错误" and `continue`s; a miss emits the no-cache
failure status and falls through), then run the fetch arm. -/
def dataFlushCycle (first_flag : Bool) (inp : CycleInput) : CycleOutput :=
  if inp.on_exit then
    ⟨[], [], first_flag, true, false⟩
  else if first_flag || inp.refresh_received then
    let loading := MessageSender.send "加载中..."
    if first_flag then
      match inp.cache_result with
      | .ok data =>
        if inp.data_send_ok then
          ⟨[loading, MessageSender.success "当前展示的是最后一次获取的数据"],
            [data], false, false, false⟩
        else
          ⟨[loading, MessageSender.failed "内部错误"], [], false, false, false⟩
      | .error _ =>
        fetchArm [loading, MessageSender.failed "无缓存，正在尝试从服务器获取"] inp
    else
      fetchArm [loading] inp
  else
    ⟨[], [], first_flag, false, false⟩

/-- The timeout, in seconds, of the idle wait
`update_flag_rx.recv_timeout(Duration::from_secs(1))`: an idle iteration
waits at most this long before re-checking the shutdown flag. -/
def recvTimeoutSecs : Nat := 1

/-- The loop of `start_data_flush_thread` run over a finite trace of
per-iteration environments, collecting every status and snapshot emitted
before the loop `break`s (or the trace ends). -/
def runLoop (first_flag : Bool) :
    List CycleInput → List Message × List GachaStatistics
  | [] => ([], [])
  | inp :: rest =>
    let out := dataFlushCycle first_flag inp
    if out.terminated then (out.statuses, out.snapshots)
    else
      let tail := runLoop out.first_flag' rest
      (out.statuses ++ tail.1, out.snapshots ++ tail.2)

/-- One bar of the plot (`egui_plot::Bar`): x-position and height.  The
source casts the `i32` count to `f64` (`Bar::new(1f64, count as f64)`);
the cast is exact on `i32`, so the height is embedded as the integer
count.  Colors, width and stroke are presentation attributes and are not
part of the embedding. -/
structure Bar where
  position : Int
  count : Int
deriving DecidableEq, Repr

/-- `egui_plot::BarChart`: a named series of bars
(`BarChart::new(vec![bar]).name(..)`). -/
structure BarChart where
  name : String
  bars : List Bar
deriving DecidableEq, Repr

/-- `GachaStatisticsView` (`main_view.rs` lines 253-259): one
render-ready unit per category. -/
structure GachaStatisticsView where
  card_pool_type : Int
  total : Int
  pull_count : Int
  bar_chart_vec : List BarChart
  detail : List GachaStatisticsDataItem
deriving DecidableEq, Repr

/-- The body of the rebuild loop of `MainView::create_bar_chart`
(`main_view.rs` lines 265-303): one `GachaStatisticsView` per
`(card_pool_type, gacha_statistics_data)` entry, with bar charts
"3星"/"4星"/"5星" at positions 1/2/3 holding `three_count` /
`four_count` / `five_count`. -/
def buildView (entry : Int × GachaStatisticsData) : GachaStatisticsView :=
  { card_pool_type := entry.1
    total := entry.2.total
    pull_count := entry.2.pull_count
    bar_chart_vec :=
      [ ⟨"3星", [⟨1, entry.2.three_count⟩]⟩
      , ⟨"4星", [⟨2, entry.2.four_count⟩]⟩
      , ⟨"5星", [⟨3, entry.2.five_count⟩]⟩ ]
    detail := entry.2.detail }

/-- The state of `MainView` (`main_view.rs` lines 42-51) relevant to the
embedding; `on_exit` embeds the shared `Arc<AtomicBool>` the view writes
on exit. -/
structure MainViewS where
  dark_mode : Bool
  message : Message
  gacha_statistics : GachaStatistics
  gacha_statistic_view_vec : List GachaStatisticsView
  on_exit : Bool
deriving DecidableEq, Repr

/-- `MainView::create_bar_chart` (`main_view.rs` lines 262-307): rebuild
the cached view-model sequence only when it is empty; otherwise the call
changes nothing. -/
def create_bar_chart (v : MainViewS) (gacha_statistic : GachaStatistics) :
    MainViewS :=
  if v.gacha_statistic_view_vec.isEmpty then
    { v with gacha_statistic_view_vec := gacha_statistic.map buildView }
  else
    v

/-- `MainView::on_exit` (`main_view.rs` lines 247-250): set the shared
shutdown flag (`swap(true, Ordering::Relaxed)`). -/
def MainViewS.onExit (v : MainViewS) : MainViewS :=
  { v with on_exit := true }

/-- The category-id → label match of `MainView::update`
(`main_view.rs` lines 187-196). -/
def cardPoolLabel (card_pool_type : Int) : String :=
  if card_pool_type = 1 then "角色活动唤取"
  else if card_pool_type = 2 then "武器活动唤取"
  else if card_pool_type = 3 then "角色常驻唤取"
  else if card_pool_type = 4 then "武器常驻唤取"
  else if card_pool_type = 5 then "新手唤取"
  else if card_pool_type = 6 then "新手自选唤取"
  else if card_pool_type = 7 then "新手自选唤取（感恩定向唤取）"
  else "新卡池"

/-- The refresh action of `MainView::update` (`main_view.rs` lines
159-163): when the update button is clicked, send `true` on
`update_flag_tx` (its `Result` discarded with `let _ =`) and clear
`gacha_statistic_view_vec`.  Returns the new state and the values sent
on the refresh channel. -/
def refreshAction (v : MainViewS) : MainViewS × List Bool :=
  ({ v with gacha_statistic_view_vec := [] }, [true])

/-- The layout loop of `MainView::update` (`main_view.rs` lines
180-242), parameterised by the precomputed outer bound
`(len as f32 / 3.0).ceil() as i32`: each outer iteration removes
`min(3, remaining)` items from the front of the cached sequence (via
`remove(0)`) and renders them as one row; returns the rows in order and
the final remaining sequence. -/
def layoutRows : Nat → List GachaStatisticsView →
    List (List GachaStatisticsView) × List GachaStatisticsView
  | 0, vs => ([], vs)
  | k + 1, vs =>
    let row := vs.take (min 3 vs.length)
    let rest := vs.drop (min 3 vs.length)
    let tail := layoutRows k rest
    (row :: tail.1, tail.2)

/-- `⌈n / 3⌉` as computed by `(len as f32 / 3.0).ceil() as i32` for the
lengths at which the `f32` arithmetic is exact. -/
def ceilDiv3 (n : Nat) : Nat := (n + 2) / 3

/-- Per-frame inputs to `MainView::update`: which buttons were clicked
and what the non-blocking `try_recv` calls on the data and message
channels returned. -/
structure FrameInput where
  switch_clicked : Bool
  update_clicked : Bool
  data_recv : Option GachaStatistics
  message_recv : Option Message
deriving DecidableEq, Repr

/-- One frame of `MainView::update` (`main_view.rs` lines 134-245):
toggle dark mode on the style button; `try_recv` a snapshot into
`gacha_statistics`; on update-button click run the refresh action;
`try_recv` a status into `message`; run `create_bar_chart` on the
current snapshot; then run the layout loop, which drains the cached
view-model sequence.  Returns the new state, the refresh triggers sent,
and the rendered rows. -/
def frameUpdate (v : MainViewS) (inp : FrameInput) :
    MainViewS × List Bool × List (List GachaStatisticsView) :=
  let v1 := if inp.switch_clicked then { v with dark_mode := !v.dark_mode } else v
  let v2 := match inp.data_recv with
    | some data => { v1 with gacha_statistics := data }
    | none => v1
  let step := if inp.update_clicked then refreshAction v2 else (v2, [])
  let v3 := step.1
  let v4 := match inp.message_recv with
    | some m => { v3 with message := m }
    | none => v3
  let v5 := create_bar_chart v4 v4.gacha_statistics
  let laid := layoutRows (ceilDiv3 v5.gacha_statistic_view_vec.length)
    v5.gacha_statistic_view_vec
  ({ v5 with gacha_statistic_view_vec := laid.2 }, step.2, laid.1)

/-- Substring test on strings, via infix of the character lists. -/
def strContains (s pat : String) : Bool := decide (List.IsInfix pat.data s.data)

/-- C3: On the first cycle (first_flag true), if the cache load
succeeds, the coordinator emits the loaded snapshot, emits a success
status, clears the first-cycle flag, and does not invoke
`gacha_statistics` during that cycle (its full output: the loading
status, the cached-data success status, the loaded snapshot, flag
cleared, loop not terminated, fetch not invoked). -/
theorem first_cycle_cache_hit (inp : CycleInput) (data : GachaStatistics)
    (hexit : inp.on_exit = false)
    (hcache : inp.cache_result = Except.ok data)
    (hsend : inp.data_send_ok = true) :
    dataFlushCycle true inp =
      ⟨[⟨"加载中...", true⟩, ⟨"当前展示的是最后一次获取的数据", true⟩],
        [data], false, false, false⟩ := by
  simp [dataFlushCycle, hexit, hcache, hsend, MessageSender.send,
    MessageSender.success]

/-- Witness for `first_cycle_cache_hit` at a concrete cycle input. -/
theorem first_cycle_cache_hit_witness :
    dataFlushCycle true
      ⟨false, false, Except.ok [(1, ⟨10, 2, 8, 1, 1, [⟨"Rare Item", 1⟩]⟩)],
        Except.error "timeout", true⟩ =
      ⟨[⟨"加载中...", true⟩, ⟨"当前展示的是最后一次获取的数据", true⟩],
        [[(1, ⟨10, 2, 8, 1, 1, [⟨"Rare Item", 1⟩]⟩)]], false, false, false⟩ :=
  first_cycle_cache_hit _ _ rfl rfl rfl

/-- C4: On the first cycle, if the cache load fails (any error), the
coordinator emits the no-cache status with `success = false`, clears the
first-cycle flag, and invokes `gacha_statistics` within the same
cycle. -/
theorem first_cycle_cache_miss (inp : CycleInput) (err : String)
    (hexit : inp.on_exit = false)
    (hcache : inp.cache_result = Except.error err) :
    Message.mk "无缓存，正在尝试从服务器获取" false ∈
      (dataFlushCycle true inp).statuses ∧
    (dataFlushCycle true inp).first_flag' = false ∧
    (dataFlushCycle true inp).fetch_invoked = true := by
  cases hfetch : inp.fetch_result with
  | ok data =>
    cases hsend : inp.data_send_ok <;>
      simp [dataFlushCycle, fetchArm, hexit, hcache, hfetch, hsend,
        MessageSender.send, MessageSender.failed]
  | error e =>
    simp [dataFlushCycle, fetchArm, hexit, hcache, hfetch,
      MessageSender.send, MessageSender.failed]

/-- Witness for `first_cycle_cache_miss` at a concrete cycle input. -/
theorem first_cycle_cache_miss_witness :
    Message.mk "无缓存，正在尝试从服务器获取" false ∈
      (dataFlushCycle true
        ⟨false, false, Except.error "no cache", Except.error "timeout",
          true⟩).statuses ∧
    (dataFlushCycle true
      ⟨false, false, Except.error "no cache", Except.error "timeout",
        true⟩).first_flag' = false ∧
    (dataFlushCycle true
      ⟨false, false, Except.error "no cache", Except.error "timeout",
        true⟩).fetch_invoked = true :=
  first_cycle_cache_miss _ "no cache" rfl rfl

/-- C5: The loop checks the shutdown flag at the top of every iteration;
an iteration at whose start the flag is set terminates the task and
emits no further status or snapshot (the whole remaining run emits
nothing), and the idle wait re-checks the flag after at most
`recvTimeoutSecs = 1` second (the constant of
`recv_timeout(Duration::from_secs(1))`). -/
theorem shutdown_stops_loop (first_flag : Bool) (inp : CycleInput)
    (rest : List CycleInput) (h : inp.on_exit = true) :
    runLoop first_flag (inp :: rest) = ([], []) ∧
    (dataFlushCycle first_flag inp).terminated = true ∧
    recvTimeoutSecs = 1 := by
  refine ⟨?_, ?_, rfl⟩ <;> simp [runLoop, dataFlushCycle, h]

/-- Witness for `shutdown_stops_loop` at a concrete trace. -/
theorem shutdown_stops_loop_witness :
    runLoop false
      [⟨true, true, Except.ok [], Except.ok [], true⟩,
       ⟨false, true, Except.ok [], Except.ok [], true⟩] = ([], []) ∧
    (dataFlushCycle false
      ⟨true, true, Except.ok [], Except.ok [], true⟩).terminated = true ∧
    recvTimeoutSecs = 1 :=
  shutdown_stops_loop false _ _ rfl

/-- C6: When the cached view-model sequence is non-empty,
`create_bar_chart` leaves the whole view state exactly unchanged (no
rebuild happens), and a second call on the same snapshot without an
intervening invalidation changes nothing further. -/
theorem create_bar_chart_cached (v : MainViewS) (g : GachaStatistics)
    (h : v.gacha_statistic_view_vec ≠ []) :
    create_bar_chart v g = v ∧
    create_bar_chart (create_bar_chart v g) g = v := by
  have hne : v.gacha_statistic_view_vec.isEmpty = false := by
    simpa [List.isEmpty_iff] using h
  constructor <;> simp [create_bar_chart, hne]

/-- Witness for `create_bar_chart_cached` at a concrete state. -/
theorem create_bar_chart_cached_witness :
    create_bar_chart
      ⟨false, ⟨"", true⟩, [], [⟨1, 0, 0, [], []⟩], false⟩
      [(2, ⟨5, 1, 4, 1, 0, []⟩)] =
      ⟨false, ⟨"", true⟩, [], [⟨1, 0, 0, [], []⟩], false⟩ ∧
    create_bar_chart
      (create_bar_chart
        ⟨false, ⟨"", true⟩, [], [⟨1, 0, 0, [], []⟩], false⟩
        [(2, ⟨5, 1, 4, 1, 0, []⟩)])
      [(2, ⟨5, 1, 4, 1, 0, []⟩)] =
      ⟨false, ⟨"", true⟩, [], [⟨1, 0, 0, [], []⟩], false⟩ :=
  create_bar_chart_cached _ _ (by simp)

/-- C7: When the cached view-model sequence is empty, the builder
produces exactly one render unit per snapshot entry (so zero-pull
categories are not filtered out), in the snapshot's iteration order,
each carrying the entry's category id, total, pity count and highlights,
and bar charts "3星"/"4星"/"5星" at positions 1/2/3 holding
`three_count` / `four_count` / `five_count`. -/
theorem builder_output (v : MainViewS) (g : GachaStatistics)
    (hempty : v.gacha_statistic_view_vec = []) :
    (create_bar_chart v g).gacha_statistic_view_vec.length = g.length ∧
    ∀ (i : Nat) (entry : Int × GachaStatisticsData), g[i]? = some entry →
      (create_bar_chart v g).gacha_statistic_view_vec[i]? = some
        (⟨entry.1, entry.2.total, entry.2.pull_count,
          [ ⟨"3星", [⟨1, entry.2.three_count⟩]⟩
          , ⟨"4星", [⟨2, entry.2.four_count⟩]⟩
          , ⟨"5星", [⟨3, entry.2.five_count⟩]⟩ ],
          entry.2.detail⟩ : GachaStatisticsView) := by
  constructor
  · simp [create_bar_chart, hempty]
  · intro i entry hi
    simp [create_bar_chart, hempty, List.getElem?_map, hi, buildView]

/-- Witness for `builder_output`: a zero-pull category with an unknown
id still yields its all-zero render unit. -/
theorem builder_output_witness :
    (create_bar_chart ⟨false, ⟨"", true⟩, [], [], false⟩
      [(9, ⟨0, 0, 0, 0, 0, []⟩)]).gacha_statistic_view_vec[0]? = some
      ⟨9, 0, 0,
        [⟨"3星", [⟨1, 0⟩]⟩, ⟨"4星", [⟨2, 0⟩]⟩, ⟨"5星", [⟨3, 0⟩]⟩], []⟩ :=
  (builder_output ⟨false, ⟨"", true⟩, [], [], false⟩
    [(9, ⟨0, 0, 0, 0, 0, []⟩)] rfl).2 0 _ rfl

/-- C8: the category-id → label mapping is a pure total function: ids 1
through 7 map to their fixed labels and every other id maps to the
fallback label "新卡池". -/
theorem card_pool_label_total (card_pool_type : Int)
    (h : card_pool_type < 1 ∨ 7 < card_pool_type) :
    cardPoolLabel 1 = "角色活动唤取" ∧
    cardPoolLabel 2 = "武器活动唤取" ∧
    cardPoolLabel 3 = "角色常驻唤取" ∧
    cardPoolLabel 4 = "武器常驻唤取" ∧
    cardPoolLabel 5 = "新手唤取" ∧
    cardPoolLabel 6 = "新手自选唤取" ∧
    cardPoolLabel 7 = "新手自选唤取（感恩定向唤取）" ∧
    cardPoolLabel card_pool_type = "新卡池" := by
  refine ⟨rfl, rfl, rfl, rfl, rfl, rfl, rfl, ?_⟩
  have h1 : card_pool_type ≠ 1 := by omega
  have h2 : card_pool_type ≠ 2 := by omega
  have h3 : card_pool_type ≠ 3 := by omega
  have h4 : card_pool_type ≠ 4 := by omega
  have h5 : card_pool_type ≠ 5 := by omega
  have h6 : card_pool_type ≠ 6 := by omega
  have h7 : card_pool_type ≠ 7 := by omega
  simp [cardPoolLabel, h1, h2, h3, h4, h5, h6, h7]

/-- Witness for `card_pool_label_total` at the unknown id 42. -/
theorem card_pool_label_total_witness :
    cardPoolLabel 1 = "角色活动唤取" ∧
    cardPoolLabel 2 = "武器活动唤取" ∧
    cardPoolLabel 3 = "角色常驻唤取" ∧
    cardPoolLabel 4 = "武器常驻唤取" ∧
    cardPoolLabel 5 = "新手唤取" ∧
    cardPoolLabel 6 = "新手自选唤取" ∧
    cardPoolLabel 7 = "新手自选唤取（感恩定向唤取）" ∧
    cardPoolLabel 42 = "新卡池" :=
  card_pool_label_total 42 (by decide)

/-- C9: the refresh action sends `true` on the refresh channel and
clears the cached view-model sequence, leaving every other field of the
consumer state unchanged; within a frame, a clicked update button sends
exactly that one trigger. -/
theorem refresh_action_effect (v : MainViewS) (inp : FrameInput)
    (h : inp.update_clicked = true) :
    (refreshAction v).2 = [true] ∧
    (refreshAction v).1.gacha_statistic_view_vec = [] ∧
    (refreshAction v).1.dark_mode = v.dark_mode ∧
    (refreshAction v).1.message = v.message ∧
    (refreshAction v).1.gacha_statistics = v.gacha_statistics ∧
    (refreshAction v).1.on_exit = v.on_exit ∧
    (frameUpdate v inp).2.1 = [true] := by
  refine ⟨rfl, rfl, rfl, rfl, rfl, rfl, ?_⟩
  simp [frameUpdate, refreshAction, h]

/-- Witness for `refresh_action_effect` at a concrete state and frame
input. -/
theorem refresh_action_effect_witness :
    (refreshAction ⟨true, ⟨"ok", true⟩, [(1, ⟨3, 1, 2, 1, 0, []⟩)],
        [⟨1, 3, 1, [], []⟩], false⟩).2 = [true] ∧
    (refreshAction ⟨true, ⟨"ok", true⟩, [(1, ⟨3, 1, 2, 1, 0, []⟩)],
        [⟨1, 3, 1, [], []⟩], false⟩).1.gacha_statistic_view_vec = [] ∧
    (refreshAction ⟨true, ⟨"ok", true⟩, [(1, ⟨3, 1, 2, 1, 0, []⟩)],
        [⟨1, 3, 1, [], []⟩], false⟩).1.dark_mode = true ∧
    (refreshAction ⟨true, ⟨"ok", true⟩, [(1, ⟨3, 1, 2, 1, 0, []⟩)],
        [⟨1, 3, 1, [], []⟩], false⟩).1.message = ⟨"ok", true⟩ ∧
    (refreshAction ⟨true, ⟨"ok", true⟩, [(1, ⟨3, 1, 2, 1, 0, []⟩)],
        [⟨1, 3, 1, [], []⟩], false⟩).1.gacha_statistics =
      [(1, ⟨3, 1, 2, 1, 0, []⟩)] ∧
    (refreshAction ⟨true, ⟨"ok", true⟩, [(1, ⟨3, 1, 2, 1, 0, []⟩)],
        [⟨1, 3, 1, [], []⟩], false⟩).1.on_exit = false ∧
    (frameUpdate ⟨true, ⟨"ok", true⟩, [(1, ⟨3, 1, 2, 1, 0, []⟩)],
        [⟨1, 3, 1, [], []⟩], false⟩ ⟨false, true, none, none⟩).2.1 =
      [true] :=
  refresh_action_effect _ ⟨false, true, none, none⟩ rfl

/-- The layout loop always produces exactly as many rows as its fuel. -/
theorem layoutRows_length (k : Nat) (vs : List GachaStatisticsView) :
    (layoutRows k vs).1.length = k := by
  induction k generalizing vs with
  | zero => rfl
  | succ k ih => simp [layoutRows, ih]

/-- With enough fuel, the layout loop drains the sequence completely and
the rows joined in order give back the original sequence. -/
theorem layoutRows_drains (k : Nat) (vs : List GachaStatisticsView)
    (h : vs.length ≤ 3 * k) :
    (layoutRows k vs).2 = [] ∧ (layoutRows k vs).1.flatten = vs := by
  induction k generalizing vs with
  | zero =>
    have : vs = [] := by
      cases vs with
      | nil => rfl
      | cons a l => simp at h
    subst this
    exact ⟨rfl, rfl⟩
  | succ k ih =>
    have hrest : (vs.drop (min 3 vs.length)).length ≤ 3 * k := by
      simp only [List.length_drop]
      omega
    have := ih (vs.drop (min 3 vs.length)) hrest
    refine ⟨?_, ?_⟩
    · simpa [layoutRows] using this.1
    · simp only [layoutRows, List.flatten]
      rw [this.2]
      exact List.take_append_drop _ vs

/-- C10: one execution of the render layout loop, whose outer bound is
`⌈n/3⌉` over the initial length `n`, removes front groups of
`min(3, remaining)`, renders them in their original order (the rows
joined give back the sequence), runs exactly `⌈n/3⌉` outer iterations,
and leaves the cached sequence empty; consequently every frame ends with
an empty view-model cache. -/
theorem layout_loop_drains_cache (vs : List GachaStatisticsView) :
    (layoutRows (ceilDiv3 vs.length) vs).2 = [] ∧
    (layoutRows (ceilDiv3 vs.length) vs).1.flatten = vs ∧
    (layoutRows (ceilDiv3 vs.length) vs).1.length = ceilDiv3 vs.length ∧
    ∀ (v : MainViewS) (inp : FrameInput),
      (frameUpdate v inp).1.gacha_statistic_view_vec = [] := by
  have hb : vs.length ≤ 3 * ceilDiv3 vs.length := by
    unfold ceilDiv3
    omega
  refine ⟨(layoutRows_drains _ vs hb).1, (layoutRows_drains _ vs hb).2,
    layoutRows_length _ vs, ?_⟩
  intro v inp
  simp only [frameUpdate]
  exact (layoutRows_drains _ _ (by unfold ceilDiv3; omega)).1

/-- C1 counterexample: on the fetch path, a concrete cycle in which the
snapshot send fails (fetch succeeded, receiver gone) emits no status
update with `success = false` at all — only the cache-load path emits
"内部错误"; the fetch path merely logs.  The loop does continue. -/
theorem send_fail_fetch_path_counterexample :
    ((dataFlushCycle false
        ⟨false, true, Except.error "", Except.ok [], false⟩).statuses.filter
      (fun m => !m.success)) = [] ∧
    (dataFlushCycle false
      ⟨false, true, Except.error "", Except.ok [], false⟩).snapshots = [] ∧
    (dataFlushCycle false
      ⟨false, true, Except.error "", Except.ok [], false⟩).terminated =
      false := by
  decide

/-- C1 amended: when a snapshot send fails, the loop continues without
terminating on both paths; the cache-load path emits the failure status
"内部错误", while the fetch path emits no further status (the failure is
only logged). -/
theorem send_fail_handling (inp : CycleInput) (data : GachaStatistics)
    (hexit : inp.on_exit = false)
    (hsend : inp.data_send_ok = false) :
    (inp.cache_result = Except.ok data →
      dataFlushCycle true inp =
        ⟨[⟨"加载中...", true⟩, ⟨"内部错误", false⟩], [], false, false,
          false⟩) ∧
    (inp.fetch_result = Except.ok data → inp.refresh_received = true →
      dataFlushCycle false inp =
        ⟨[⟨"加载中...", true⟩], [], false, false, true⟩) := by
  constructor
  · intro hcache
    simp [dataFlushCycle, hexit, hsend, hcache, MessageSender.send,
      MessageSender.failed]
  · intro hfetch hrefresh
    simp [dataFlushCycle, fetchArm, hexit, hsend, hfetch, hrefresh,
      MessageSender.send]

/-- Witness for `send_fail_handling` at a concrete cycle input with a
dead snapshot receiver. -/
theorem send_fail_handling_witness :
    dataFlushCycle true
      ⟨false, true, Except.ok [(1, ⟨1, 1, 1, 0, 0, []⟩)],
        Except.ok [(1, ⟨1, 1, 1, 0, 0, []⟩)], false⟩ =
      ⟨[⟨"加载中...", true⟩, ⟨"内部错误", false⟩], [], false, false,
        false⟩ ∧
    dataFlushCycle false
      ⟨false, true, Except.ok [(1, ⟨1, 1, 1, 0, 0, []⟩)],
        Except.ok [(1, ⟨1, 1, 1, 0, 0, []⟩)], false⟩ =
      ⟨[⟨"加载中...", true⟩], [], false, false, true⟩ :=
  ⟨(send_fail_handling _ [(1, ⟨1, 1, 1, 0, 0, []⟩)] rfl rfl).1 rfl,
    (send_fail_handling _ [(1, ⟨1, 1, 1, 0, 0, []⟩)] rfl rfl).2 rfl rfl⟩

/-- C2 counterexample: a concrete first cycle whose cache load fails and
whose fetch fails with reason "无缓存" emits two status updates with
`success = false` whose messages contain the reason (the no-cache status
and the aggregation-failure status), not exactly one. -/
theorem fetch_error_status_not_unique :
    ((dataFlushCycle true
        ⟨false, false, Except.error "e", Except.error "无缓存",
          true⟩).statuses.filter
      (fun m => !m.success && strContains m.message "无缓存")).length =
      2 := by
  decide

/-- C2 amended: a cycle whose fetch fails with reason `err` emits the
aggregation-failure status `⟨"抽卡数据统计失败，失败原因：" ++ err, false⟩`
(whose message contains the reason) exactly once, and sends nothing on
the snapshot channel: on a non-first cycle the statuses are exactly the
loading status and the failure status; on a first cycle after a cache
miss the no-cache failure status (which may itself contain the reason)
additionally precedes it. -/
theorem fetch_error_cycle (inp : CycleInput) (err : String)
    (hexit : inp.on_exit = false)
    (hfetch : inp.fetch_result = Except.error err) :
    (inp.refresh_received = true →
      dataFlushCycle false inp =
        ⟨[⟨"加载中...", true⟩,
          ⟨"抽卡数据统计失败，失败原因：" ++ err, false⟩],
          [], false, false, true⟩) ∧
    (∀ e, inp.cache_result = Except.error e →
      dataFlushCycle true inp =
        ⟨[⟨"加载中...", true⟩, ⟨"无缓存，正在尝试从服务器获取", false⟩,
          ⟨"抽卡数据统计失败，失败原因：" ++ err, false⟩],
          [], false, false, true⟩) ∧
    strContains ("抽卡数据统计失败，失败原因：" ++ err) err = true := by
  refine ⟨?_, ?_, ?_⟩
  · intro hrefresh
    simp [dataFlushCycle, fetchArm, hexit, hfetch, hrefresh,
      MessageSender.send, MessageSender.failed]
  · intro e hcache
    simp [dataFlushCycle, fetchArm, hexit, hfetch, hcache,
      MessageSender.send, MessageSender.failed]
  · simp only [strContains, decide_eq_true_eq, String.data_append]
    exact (List.suffix_append _ _).isInfix

/-- Witness for `fetch_error_cycle` at a concrete cycle input with fetch
reason "timeout". -/
theorem fetch_error_cycle_witness :
    dataFlushCycle false
      ⟨false, true, Except.error "no cache", Except.error "timeout",
        true⟩ =
      ⟨[⟨"加载中...", true⟩,
        ⟨"抽卡数据统计失败，失败原因：" ++ "timeout", false⟩],
        [], false, false, true⟩ ∧
    dataFlushCycle true
      ⟨false, true, Except.error "no cache", Except.error "timeout",
        true⟩ =
      ⟨[⟨"加载中...", true⟩, ⟨"无缓存，正在尝试从服务器获取", false⟩,
        ⟨"抽卡数据统计失败，失败原因：" ++ "timeout", false⟩],
        [], false, false, true⟩ ∧
    strContains ("抽卡数据统计失败，失败原因：" ++ "timeout") "timeout" =
      true :=
  ⟨(fetch_error_cycle
      ⟨false, true, Except.error "no cache", Except.error "timeout", true⟩
      "timeout" rfl rfl).1 rfl,
    (fetch_error_cycle
      ⟨false, true, Except.error "no cache", Except.error "timeout", true⟩
      "timeout" rfl rfl).2.1 "no cache" rfl,
    (fetch_error_cycle
      ⟨false, true, Except.error "no cache", Except.error "timeout", true⟩
      "timeout" rfl rfl).2.2⟩

end WWGacha
